import Mathlib

/-!
Shallow embedding of the Seat Availability & Reservation Core of the
cinema-booking-system repository (apps/movies/models.py, apps/bookings/models.py,
apps/bookings/serializers.py, apps/bookings/views.py).

Conventions of the embedding:
* Django rows become Lean structures; each table is a `List` field of `DB`.
* `timezone.now()` becomes an explicit `now : Int` argument (seconds since an
  arbitrary epoch); `timedelta(minutes=15)` is `15 * 60` seconds.
* `DecimalField` money amounts become `Int` (an exact count of cents).
* A seat is identified by its primary key `id`; the serializers identify a seat
  inside a screen by `(row, seat_number)`, which is unique per screen
  (`Seat.Meta.unique_together`), so the two identifications agree.
* Foreign-key lookups (`find?`) return `Option`; in Django the FK columns are
  NOT NULL so the `none` branches are unreachable on well-formed databases and
  are given the harmless defaults noted at each use.
* Database `unique_together` constraints are modelled as an explicit check on
  insert that fails with a distinguished error, exactly as the SQL layer
  rejects the `INSERT` with an integrity error.
-/

/-- Seat.SEAT_STATUS choices from apps/movies/models.py. -/
inductive SeatStatus
  | available
  | occupied
  | maintenance
  | blocked
deriving DecidableEq

/-- Booking.BOOKING_STATUS_CHOICES from apps/bookings/models.py. -/
inductive BookingStatus
  | PENDING
  | CONFIRMED
  | CANCELLED
  | EXPIRED
deriving DecidableEq

/-- SeatType model (apps/movies/models.py): pricing tier with a base price. -/
structure SeatType where
  id : Nat
  base_price : Int
deriving DecidableEq

/-- Seat model (apps/movies/models.py): a physical seat of a screen. -/
structure Seat where
  id : Nat
  screenId : Nat
  seatTypeId : Nat
  row : String
  seat_number : String
  status : SeatStatus
deriving DecidableEq

/-- MovieSchedule model (apps/movies/models.py): a showing on a screen. -/
structure MovieSchedule where
  id : Nat
  screenId : Nat
  start_time : Int
  end_time : Int
  base_price : Int
deriving DecidableEq

/-- Booking model (apps/bookings/models.py). -/
structure Booking where
  id : Nat
  userId : Nat
  scheduleId : Nat
  total_amount : Int
  booking_status : BookingStatus
  expires_at : Int
  confirmed_at : Option Int
  payment_method : Option String
  payment_reference : Option String
  notes : String
deriving DecidableEq

/-- BookedSeat model (apps/bookings/models.py): one seat of a booking with the
price actually paid. -/
structure BookedSeat where
  bookingId : Nat
  seatId : Nat
  price_paid : Int
deriving DecidableEq

/-- SeatReservation model (apps/bookings/models.py): a temporary hold on a
seat for a schedule. -/
structure SeatReservation where
  id : Nat
  userId : Nat
  scheduleId : Nat
  seatId : Nat
  reserved_until : Int
deriving DecidableEq

/-- The relational store: one list per table of the core. -/
structure DB where
  seatTypes : List SeatType
  seats : List Seat
  schedules : List MovieSchedule
  bookings : List Booking
  bookedSeats : List BookedSeat
  reservations : List SeatReservation
deriving DecidableEq

/-- The BookedSeat query of Seat.is_available_for_schedule and
Screen.available_seats_for_schedule (apps/movies/models.py): does a BookedSeat
row on this (schedule, seat) belong to a booking with status CONFIRMED or
PENDING? -/
def bookedFor (db : DB) (schedId seatId : Nat) : Bool :=
  db.bookedSeats.any fun bs =>
    bs.seatId == seatId &&
    db.bookings.any fun b =>
      b.id == bs.bookingId && b.scheduleId == schedId &&
      (b.booking_status == BookingStatus.CONFIRMED ||
       b.booking_status == BookingStatus.PENDING)

/-- The SeatReservation query used by the availability reads and by
SeatReservationSerializer.validate: is there a reservation row for this
(schedule, seat) with reserved_until >= now? -/
def live_reservation (db : DB) (now : Int) (schedId seatId : Nat) : Bool :=
  db.reservations.any fun r =>
    r.scheduleId == schedId && r.seatId == seatId &&
    decide (r.reserved_until ≥ now)

/-- Seat.is_available_for_schedule (apps/movies/models.py lines 257-282):
physical status must be available, then not booked (CONFIRMED/PENDING), then
not covered by a live reservation. -/
def Seat.is_available_for_schedule (db : DB) (now : Int) (seat : Seat)
    (ms : MovieSchedule) : Bool :=
  if seat.status != SeatStatus.available then false
  else if bookedFor db ms.id seat.id then false
  else !(live_reservation db now ms.id seat.id)

/-- Screen.available_seats_for_schedule (apps/movies/models.py lines 119-139):
the seat ids named by an active (CONFIRMED/PENDING) BookedSeat row for the
schedule, mirroring the values_list of booked_seats. -/
def booked_seat_ids (db : DB) (schedId : Nat) : List Nat :=
  db.bookedSeats.filterMap fun bs =>
    if db.bookings.any (fun b =>
        b.id == bs.bookingId && b.scheduleId == schedId &&
        (b.booking_status == BookingStatus.CONFIRMED ||
         b.booking_status == BookingStatus.PENDING))
    then some bs.seatId else none

/-- The seat ids named by a reservation row with reserved_until >= now for the
schedule, mirroring the values_list of reserved_seats. -/
def reserved_seat_ids (db : DB) (now : Int) (schedId : Nat) : List Nat :=
  db.reservations.filterMap fun r =>
    if r.scheduleId == schedId && decide (r.reserved_until ≥ now)
    then some r.seatId else none

/-- Screen.available_seats_for_schedule (apps/movies/models.py lines 119-139):
all seats of the screen except those whose id is booked or live-reserved.
Note the source applies no filter on Seat.status here. -/
def available_seats_for_schedule (db : DB) (now : Int) (screenId : Nat)
    (ms : MovieSchedule) : List Seat :=
  let unavailable := booked_seat_ids db ms.id ++ reserved_seat_ids db now ms.id
  (db.seats.filter (fun s => s.screenId == screenId)).filter
    (fun s => !(unavailable.contains s.id))

/-- Seat.get_price_for_schedule (apps/movies/models.py lines 284-291): returns
the seat type's base_price; the movie_schedule parameter is accepted but not
used by the body. The FK to SeatType is NOT NULL, so the none branch is
unreachable on a well-formed database; it returns 0. -/
def Seat.get_price_for_schedule (db : DB) (seat : Seat)
    (ms : MovieSchedule) : Int :=
  match db.seatTypes.find? (fun t => t.id == seat.seatTypeId) with
  | some t => t.base_price
  | none => 0

/-- Booking.is_expired (apps/bookings/models.py lines 87-88). -/
def Booking.is_expired (now : Int) (b : Booking) : Bool :=
  decide (now > b.expires_at) && b.booking_status == BookingStatus.PENDING

/-- The schedule row of a booking (the movie_schedule FK). -/
def scheduleOf (db : DB) (b : Booking) : Option MovieSchedule :=
  db.schedules.find? (fun m => m.id == b.scheduleId)

/-- Booking.can_be_cancelled (apps/bookings/models.py lines 96-101): status
must be CONFIRMED and the movie must not have started. The FK is total in
Django; the none branch is unreachable and returns false. -/
def Booking.can_be_cancelled (db : DB) (now : Int) (b : Booking) : Bool :=
  if b.booking_status != BookingStatus.CONFIRMED then false
  else
    match scheduleOf db b with
    | some ms => decide (ms.start_time > now)
    | none => false

/-- The BookedSeat rows of a booking (the booked_seats related manager). -/
def booked_seats_of (db : DB) (b : Booking) : List BookedSeat :=
  db.bookedSeats.filter (fun bs => bs.bookingId == b.id)

/-- Booking.calculate_total_amount (apps/bookings/models.py lines 103-107):
sums, over the booking's BookedSeat rows, the seat's CURRENT
get_price_for_schedule value (not the stored price_paid). -/
def Booking.calculate_total_amount (db : DB) (b : Booking) : Int :=
  (booked_seats_of db b).foldl
    (fun total bs =>
      total +
        match db.seats.find? (fun s => s.id == bs.seatId), scheduleOf db b with
        | some seat, some ms => Seat.get_price_for_schedule db seat ms
        | _, _ => 0)
    0

/-- Booking.confirm_booking (apps/bookings/models.py lines 109-116): sets
status to CONFIRMED and confirmed_at to now unconditionally; payment fields
are overwritten only when a (truthy) value is passed. -/
def Booking.confirm_booking (b : Booking) (now : Int)
    (payment_method payment_reference : Option String) : Booking :=
  { b with
    booking_status := BookingStatus.CONFIRMED
    confirmed_at := some now
    payment_method :=
      match payment_method with
      | some p => some p
      | none => b.payment_method
    payment_reference :=
      match payment_reference with
      | some p => some p
      | none => b.payment_reference }

/-- Booking.cancel_booking (apps/bookings/models.py lines 118-122): sets
status to CANCELLED unconditionally; notes are overwritten when a reason is
given. -/
def Booking.cancel_booking (b : Booking) (reason : Option String) : Booking :=
  { b with
    booking_status := BookingStatus.CANCELLED
    notes :=
      match reason with
      | some r => "Cancelled: " ++ r
      | none => b.notes }

/-- Persisting an updated booking row (Booking.save on an existing pk). -/
def saveBooking (db : DB) (b : Booking) : DB :=
  { db with bookings := db.bookings.map (fun x => if x.id == b.id then b else x) }

/-- The confirm operation at database level: load the row, apply
Booking.confirm_booking, save. A missing id leaves the store unchanged. -/
def confirm_booking_op (db : DB) (now : Int) (bookingId : Nat)
    (payment_method payment_reference : Option String) : DB :=
  match db.bookings.find? (fun b => b.id == bookingId) with
  | some b => saveBooking db (b.confirm_booking now payment_method payment_reference)
  | none => db

/-- The cancel operation at database level (both Booking.cancel_booking and
BookingViewSet.cancel_booking set the status to CANCELLED and save, with no
precondition). A missing id leaves the store unchanged. -/
def cancel_booking_op (db : DB) (bookingId : Nat) (reason : Option String) : DB :=
  match db.bookings.find? (fun b => b.id == bookingId) with
  | some b => saveBooking db (b.cancel_booking reason)
  | none => db

/-- Outcomes of a hold attempt: the serializer's ValidationError
("Seat is already reserved.") or the database rejecting the insert under
SeatReservation.Meta.unique_together = ['movie_schedule', 'seat']. -/
inductive HoldError
  | seatAlreadyReserved
  | uniqueViolation
deriving DecidableEq

/-- create_hold: SeatReservationSerializer.validate
(apps/bookings/serializers.py lines 73-82) rejects when a reservation row for
the (schedule, seat) with reserved_until >= now exists; otherwise the insert
runs, and the unconditional unique_together constraint on
(movie_schedule, seat) rejects it whenever ANY row on the pair remains, live
or expired. On success SeatReservation.save fills
reserved_until = now + 15 minutes. -/
def create_hold (db : DB) (now : Int) (newId userId schedId seatId : Nat) :
    Except HoldError DB :=
  if live_reservation db now schedId seatId then
    Except.error HoldError.seatAlreadyReserved
  else if db.reservations.any (fun r => r.scheduleId == schedId && r.seatId == seatId) then
    Except.error HoldError.uniqueViolation
  else
    Except.ok { db with
      reservations := db.reservations ++
        [{ id := newId, userId := userId, scheduleId := schedId,
           seatId := seatId, reserved_until := now + 15 * 60 }] }

/-- release_hold: SeatReservationViewSet destroy deletes the row; deleting an
absent id changes nothing. -/
def release_hold (db : DB) (resId : Nat) : DB :=
  { db with reservations := db.reservations.filter (fun r => !(r.id == resId)) }

/-- The only failure the booking-creation loop can hit: the
BookedSeat.Meta.unique_together = ['booking', 'seat'] constraint. -/
inductive BookingError
  | duplicateSeat
deriving DecidableEq

/-- The price_paid value BookedSeat.save computes: the seat's current
get_price_for_schedule for the booking's schedule (0 only on the unreachable
broken-FK branches). -/
def priceIn (db : DB) (ms : Option MovieSchedule) (seatId : Nat) : Int :=
  match db.seats.find? (fun s => s.id == seatId), ms with
  | some seat, some m => Seat.get_price_for_schedule db seat m
  | _, _ => 0

/-- One BookedSeat.objects.create of BookingSerializer.create: the database
enforces unique_together on (booking, seat); BookedSeat.save
(apps/bookings/models.py lines 153-157) computes price_paid from the seat's
current get_price_for_schedule because the serializer never supplies a
price. -/
def insertBookedSeat (db : DB) (bookingId : Nat) (ms : Option MovieSchedule)
    (seatId : Nat) : Except BookingError DB :=
  if db.bookedSeats.any (fun bs => bs.bookingId == bookingId && bs.seatId == seatId) then
    Except.error BookingError.duplicateSeat
  else
    Except.ok { db with
      bookedSeats := db.bookedSeats ++
        [{ bookingId := bookingId, seatId := seatId,
           price_paid := priceIn db ms seatId }] }

/-- The Booking row inserted by Booking.objects.create inside
BookingSerializer.create: status defaults to PENDING and Booking.save fills
expires_at = now + 15 minutes; total_amount is taken from the request body. -/
def newPendingBooking (now : Int) (newId userId schedId : Nat)
    (total_amount : Int) : Booking :=
  { id := newId, userId := userId, scheduleId := schedId,
    total_amount := total_amount, booking_status := BookingStatus.PENDING,
    expires_at := now + 15 * 60, confirmed_at := none,
    payment_method := none, payment_reference := none, notes := "" }

/-- One iteration of the creation loop of BookingSerializer.create: once an
error occurred the loop has aborted (the exception propagates), otherwise the
next BookedSeat is inserted. -/
def bookingStep (bookingId : Nat) (ms : Option MovieSchedule)
    (acc : DB × Option BookingError) (sid : Nat) : DB × Option BookingError :=
  match acc with
  | (d, some e) => (d, some e)
  | (d, none) =>
    match insertBookedSeat d bookingId ms sid with
    | Except.ok d2 => (d2, none)
    | Except.error e => (d, some e)

/-- BookingSerializer.create (apps/bookings/serializers.py lines 46-51): it
creates the Booking row first and then one BookedSeat per element, with no
availability check and no transaction around the loop; an integrity error in
the middle aborts the loop but keeps everything already inserted. The result
carries the final store together with the error, if one occurred. -/
def create_booking (db : DB) (now : Int) (newId userId schedId : Nat)
    (total_amount : Int) (seatIds : List Nat) : DB × Option BookingError :=
  let b := newPendingBooking now newId userId schedId total_amount
  let db1 := { db with bookings := db.bookings ++ [b] }
  let ms := db.schedules.find? (fun m => m.id == schedId)
  seatIds.foldl (bookingStep b.id ms) (db1, none)

/-- Raising a seat type's base_price (an administrative catalog update). -/
def set_seat_type_price (db : DB) (typeId : Nat) (p : Int) : DB :=
  { db with
    seatTypes := db.seatTypes.map fun t =>
      if t.id == typeId then { t with base_price := p } else t }

/-- Changing a schedule's own base_price column (never read by pricing). -/
def set_schedule_base_price (db : DB) (schedId : Nat) (p : Int) : DB :=
  { db with
    schedules := db.schedules.map fun m =>
      if m.id == schedId then { m with base_price := p } else m }

/-! Concrete fixtures: a one-screen catalog with a VIP seat type priced 10,
two available seats X (id 1) and Y (id 2), one maintenance seat M (id 3), and
a single showing S (id 1) starting at time 5000. -/

/-- A seat type priced 10. -/
def vipType : SeatType := { id := 1, base_price := 10 }

/-- Seat X: id 1, physically available. -/
def seatX : Seat :=
  { id := 1, screenId := 1, seatTypeId := 1, row := "A", seat_number := "1",
    status := SeatStatus.available }

/-- Seat Y: id 2, physically available. -/
def seatY : Seat :=
  { id := 2, screenId := 1, seatTypeId := 1, row := "A", seat_number := "2",
    status := SeatStatus.available }

/-- Seat M: id 3, under maintenance. -/
def seatM : Seat :=
  { id := 3, screenId := 1, seatTypeId := 1, row := "B", seat_number := "1",
    status := SeatStatus.maintenance }

/-- Showing S on screen 1, starting at 5000. -/
def schedS : MovieSchedule :=
  { id := 1, screenId := 1, start_time := 5000, end_time := 12000,
    base_price := 7 }

/-- The catalog-only store: no bookings, no booked seats, no reservations. -/
def catalogDB : DB :=
  { seatTypes := [vipType], seats := [seatX, seatY, seatM],
    schedules := [schedS], bookings := [], bookedSeats := [],
    reservations := [] }

/-- User 7 books seat X at time 0 (booking id 1, client-sent total 10). -/
def dbAfterBooking : DB := (create_booking catalogDB 0 1 7 1 10 [1]).1

/-- The booking is confirmed at time 100. -/
def dbAfterConfirm : DB := confirm_booking_op dbAfterBooking 100 1 (some "card") none

/-- User 8 then asks for a hold on the already-sold seat X at time 200. -/
def dbAfterHold : DB :=
  match create_hold dbAfterConfirm 200 1 8 1 1 with
  | Except.ok d => d
  | Except.error _ => dbAfterConfirm

/-- Decidable form of the exclusion property of the claim: no live reservation
coexists with an active (PENDING/CONFIRMED) BookedSeat on its
(schedule, seat) pair. -/
def exclusion_free (db : DB) (now : Int) : Bool :=
  db.reservations.all fun r =>
    !(decide (r.reserved_until ≥ now) && bookedFor db r.scheduleId r.seatId)

/-- A CONFIRMED booking (id 1, user 7) holding seat Y for showing S. -/
def bookingB : Booking :=
  { id := 1, userId := 7, scheduleId := 1, total_amount := 10,
    booking_status := BookingStatus.CONFIRMED, expires_at := 900,
    confirmed_at := some 100, payment_method := none,
    payment_reference := none, notes := "" }

/-- Store in which seat Y is CONFIRMED-booked for showing S. -/
def dbBookedY : DB :=
  { catalogDB with
    bookings := [bookingB],
    bookedSeats := [{ bookingId := 1, seatId := 2, price_paid := 10 }] }

/-- A PENDING booking (id 1, user 7) for showing S with expires_at = 900. -/
def pendBooking : Booking :=
  { id := 1, userId := 7, scheduleId := 1, total_amount := 10,
    booking_status := BookingStatus.PENDING, expires_at := 900,
    confirmed_at := none, payment_method := none,
    payment_reference := none, notes := "" }

/-- Store in which seat X is PENDING-booked (booking id 1). -/
def dbPendX : DB :=
  { catalogDB with
    bookings := [pendBooking],
    bookedSeats := [{ bookingId := 1, seatId := 1, price_paid := 10 }] }

/-- The total the SPEC describes (for comparison with the source): the sum of
price_paid across the booking's BookedSeat rows. The source has no such
function — Booking.calculate_total_amount sums current catalog prices
instead. -/
def spec_total_price_paid (db : DB) (b : Booking) : Int :=
  (booked_seats_of db b).foldl (fun t bs => t + bs.price_paid) 0

/-- Booking seat X with a client-chosen total_amount of 999. -/
def dbC5 : DB := (create_booking catalogDB 0 1 7 1 999 [1]).1

/-- A hold by user 7 on (S, X) that expired at time 900. -/
def dbDeadHold : DB :=
  { catalogDB with
    reservations := [{ id := 1, userId := 7, scheduleId := 1, seatId := 1,
                       reserved_until := 900 }] }

/-- A hold on (S, X) with reserved_until = 500. -/
def dbHold500 : DB :=
  { catalogDB with
    reservations := [{ id := 1, userId := 7, scheduleId := 1, seatId := 1,
                       reserved_until := 500 }] }

/-- The part of the claimed exclusion invariant the schema does enforce: no
two reservation ROWS (live or dead) share a (movie_schedule, seat) pair —
this is SeatReservation.Meta.unique_together as a predicate on the store. -/
def ResPairUnique (db : DB) : Prop :=
  db.reservations.Pairwise fun r1 r2 =>
    ¬(r1.scheduleId = r2.scheduleId ∧ r1.seatId = r2.seatId)

/-- C1 counterexample: starting from the catalog-only store, book seat X,
confirm the booking, then create_hold on the same (showing, seat) SUCCEEDS
(SeatReservationSerializer.validate only queries SeatReservation rows, never
bookings), leaving a state with BOTH a live reservation and a CONFIRMED
BookedSeat on (S, X): the exclusion predicate fails and create_hold did not
preserve it. -/
theorem C1_exclusion_cex :
    exclusion_free dbAfterConfirm 200 = true ∧
    (create_booking catalogDB 0 1 7 1 10 [1]).2 = none ∧
    create_hold dbAfterConfirm 200 1 8 1 1 = Except.ok dbAfterHold ∧
    live_reservation dbAfterHold 200 1 1 = true ∧
    bookedFor dbAfterHold 1 1 = true ∧
    exclusion_free dbAfterHold 200 = false :=
  ⟨by decide, by decide, rfl, by decide, by decide, by decide⟩

/-- C2 counterexample: seat Y fails is_seat_available, yet
create_booking(user 8, S, [X, Y]) succeeds (error component none) and inserts
the Booking row and a BookedSeat row for BOTH seats — seat Y is now
double-booked; BookingSerializer.create never raises SeatUnavailable. -/
theorem C2_no_conflict_check_cex :
    Seat.is_available_for_schedule dbBookedY 1000 seatY schedS = false ∧
    (create_booking dbBookedY 1000 2 8 1 20 [1, 2]).2 = none ∧
    (create_booking dbBookedY 1000 2 8 1 20 [1, 2]).1.bookings =
      [bookingB, newPendingBooking 1000 2 8 1 20] ∧
    (create_booking dbBookedY 1000 2 8 1 20 [1, 2]).1.bookedSeats =
      [{ bookingId := 1, seatId := 2, price_paid := 10 },
       { bookingId := 2, seatId := 1, price_paid := 10 },
       { bookingId := 2, seatId := 2, price_paid := 10 }] := by
  refine ⟨by decide, by decide, by decide, by decide⟩

/-- C3 counterexample: at time 1000 the PENDING booking is expired
(is_expired = true), yet confirm_booking succeeds and sets the status to
CONFIRMED — not BookingExpired, and the status does not become EXPIRED; a
second confirm also sets CONFIRMED instead of failing with
InvalidTransition. -/
theorem C3_confirm_unconditional_cex :
    Booking.is_expired 1000 pendBooking = true ∧
    (pendBooking.confirm_booking 1000 (some "card") (some "ref")).booking_status
      = BookingStatus.CONFIRMED ∧
    (pendBooking.confirm_booking 1000 (some "card") (some "ref")).confirmed_at
      = some 1000 ∧
    ((pendBooking.confirm_booking 1000 (some "card") (some "ref")).confirm_booking
        2000 none none).booking_status = BookingStatus.CONFIRMED := by
  refine ⟨by decide, by decide, by decide, by decide⟩

/-- C4 counterexample: a PENDING booking has can_be_cancelled = false, and a
CONFIRMED booking whose showing started at 5000 is likewise not cancellable at
time 6000 — yet cancel_booking sets the status to CANCELLED in both cases
(no InvalidTransition, status not left unchanged), both on the row and
through the database-level operation. -/
theorem C4_cancel_unconditional_cex :
    Booking.can_be_cancelled catalogDB 100 pendBooking = false ∧
    (pendBooking.cancel_booking (some "user request")).booking_status
      = BookingStatus.CANCELLED ∧
    Booking.can_be_cancelled catalogDB 6000 bookingB = false ∧
    (bookingB.cancel_booking none).booking_status = BookingStatus.CANCELLED ∧
    (cancel_booking_op dbPendX 1 none).bookings
      = [pendBooking.cancel_booking none] := by
  refine ⟨by decide, by decide, by decide, by decide, by decide⟩

/-- C5 counterexample: create_booking stores the caller-sent total_amount 999
although the single BookedSeat snapshot is 10, so total_amount is NOT the sum
of price_paid; and the code's own total, calculate_total_amount, IS derived
from the current catalog: raising the seat type's base_price from 10 to 15
moves it from 10 to 15 while the price_paid sum stays 10. -/
theorem C5_total_amount_cex :
    (create_booking catalogDB 0 1 7 1 999 [1]).2 = none ∧
    newPendingBooking 0 1 7 1 999 ∈ dbC5.bookings ∧
    (newPendingBooking 0 1 7 1 999).total_amount = 999 ∧
    spec_total_price_paid dbC5 (newPendingBooking 0 1 7 1 999) = 10 ∧
    Booking.calculate_total_amount dbC5 (newPendingBooking 0 1 7 1 999) = 10 ∧
    Booking.calculate_total_amount (set_seat_type_price dbC5 1 15)
      (newPendingBooking 0 1 7 1 999) = 15 ∧
    spec_total_price_paid (set_seat_type_price dbC5 1 15)
      (newPendingBooking 0 1 7 1 999) = 10 := by
  refine ⟨by decide, by decide, by decide, by decide, by decide, by decide, by decide⟩

/-- C6 counterexample: seat M is under maintenance and nothing books or holds
it, yet Screen.available_seats_for_schedule lists it as available (the method
never filters on Seat.status); only the single-seat check excludes it. -/
theorem C6_maintenance_seat_cex :
    seatM.status = SeatStatus.maintenance ∧
    seatM ∈ available_seats_for_schedule catalogDB 0 1 schedS ∧
    Seat.is_available_for_schedule catalogDB 0 seatM schedS = false := by
  refine ⟨by decide, by decide, by decide⟩

/-- C7 counterexample: at time 1000 the PENDING booking on seat X is past its
expiry (is_expired = true), yet both availability reads still treat seat X as
blocked — the booking filter looks only at booking_status, never at
expires_at. -/
theorem C7_expired_pending_blocks_cex :
    Booking.is_expired 1000 pendBooking = true ∧
    pendBooking ∈ dbPendX.bookings ∧
    Seat.is_available_for_schedule dbPendX 1000 seatX schedS = false ∧
    seatX ∉ available_seats_for_schedule dbPendX 1000 1 schedS := by
  refine ⟨by decide, by decide, by decide, by decide⟩

/-- C8 counterexample: while the hold lives (time 60) a second hold fails
validation as the spec scenario says; but at time 960, after expiry, the
retry does NOT succeed: validation passes (no live reservation), and the
insert is rejected by the unconditional unique_together constraint on
(movie_schedule, seat) because the dead row still exists. -/
theorem C8_dead_row_blocks_cex :
    create_hold dbDeadHold 60 2 8 1 1 = Except.error HoldError.seatAlreadyReserved ∧
    live_reservation dbDeadHold 960 1 1 = false ∧
    create_hold dbDeadHold 960 2 8 1 1 = Except.error HoldError.uniqueViolation :=
  ⟨rfl, by decide, rfl⟩

/-- C9 counterexample: the claim says the seat is available again at the exact
instant now = t. With reserved_until = 500, at now = 500 the reservation
still matches the reserved_until >= now filter, so seat X is still excluded;
it only reappears at now = 501. -/
theorem C9_boundary_cex :
    live_reservation dbHold500 500 1 1 = true ∧
    seatX ∉ available_seats_for_schedule dbHold500 500 1 schedS ∧
    seatX ∈ available_seats_for_schedule dbHold500 501 1 schedS := by
  refine ⟨by decide, by decide, by decide⟩


/-- C3 amended: Booking.confirm_booking is unconditional — it sets the status
to CONFIRMED and confirmed_at to the current time for EVERY booking, whatever
its current status or expiry; in particular confirming twice sets CONFIRMED
both times. No BookingExpired or InvalidTransition failure exists in the
code, and an expired PENDING booking is confirmed rather than moved to
EXPIRED. -/
theorem C3_confirm_is_unconditional (b : Booking) (now now2 : Int)
    (pm pr pm2 pr2 : Option String) :
    (b.confirm_booking now pm pr).booking_status = BookingStatus.CONFIRMED ∧
    (b.confirm_booking now pm pr).confirmed_at = some now ∧
    ((b.confirm_booking now pm pr).confirm_booking now2 pm2 pr2).booking_status
      = BookingStatus.CONFIRMED ∧
    ((b.confirm_booking now pm pr).confirm_booking now2 pm2 pr2).confirmed_at
      = some now2 :=
  ⟨rfl, rfl, rfl, rfl⟩

/-- C4 amended: Booking.cancel_booking (and the view's cancel action) set the
status to CANCELLED unconditionally; the precondition the claim describes
(status CONFIRMED and the showing still in the future) is exactly what
Booking.can_be_cancelled computes, but no cancellation path consults it. -/
theorem C4_cancel_is_unconditional (db : DB) (now : Int) (b : Booking)
    (reason : Option String) :
    (b.cancel_booking reason).booking_status = BookingStatus.CANCELLED ∧
    (Booking.can_be_cancelled db now b = true ↔
      b.booking_status = BookingStatus.CONFIRMED ∧
      ∃ ms, scheduleOf db b = some ms ∧ now < ms.start_time) := by
  constructor
  · rfl
  · unfold Booking.can_be_cancelled
    by_cases h : b.booking_status = BookingStatus.CONFIRMED
    · simp only [h, bne_self_eq_false, Bool.false_eq_true, if_false]
      cases hm : scheduleOf db b with
      | none => simp
      | some ms => simp [gt_iff_lt]
    · have hb : (b.booking_status != BookingStatus.CONFIRMED) = true := by
        simp [bne_iff_ne, h]
      simp [hb, h]

/-- C5 amended: a catalog price update (set_seat_type_price) changes neither
the Booking rows (so every stored total_amount is unaffected) nor the
BookedSeat rows (so every price_paid snapshot, and their sum, is unaffected).
The stored total, however, is whatever the caller sent at creation — it is
not constrained to equal the sum of price_paid — and the helper
Booking.calculate_total_amount reads current catalog prices (see the
counterexample). -/
theorem C5_stored_amounts_stable (db : DB) (tid : Nat) (p : Int)
    (b : Booking) (hb : b ∈ db.bookings) :
    b ∈ (set_seat_type_price db tid p).bookings ∧
    (set_seat_type_price db tid p).bookings = db.bookings ∧
    booked_seats_of (set_seat_type_price db tid p) b = booked_seats_of db b ∧
    spec_total_price_paid (set_seat_type_price db tid p) b
      = spec_total_price_paid db b :=
  ⟨hb, rfl, rfl, rfl⟩

/-- Witness for C5_stored_amounts_stable at the concrete store dbBookedY. -/
theorem C5_stored_amounts_stable_witness :
    bookingB ∈ (set_seat_type_price dbBookedY 1 15).bookings ∧
    (set_seat_type_price dbBookedY 1 15).bookings = dbBookedY.bookings ∧
    booked_seats_of (set_seat_type_price dbBookedY 1 15) bookingB
      = booked_seats_of dbBookedY bookingB ∧
    spec_total_price_paid (set_seat_type_price dbBookedY 1 15) bookingB
      = spec_total_price_paid dbBookedY bookingB :=
  C5_stored_amounts_stable dbBookedY 1 15 bookingB (by decide)

/-- C8 amended: once every reservation on the (showing, seat) pair is expired
(the serializer validation passes), a retry still fails — with the database
uniqueViolation — as long as ANY row on the pair remains, because
SeatReservation.Meta.unique_together is not scoped to live rows; the hold
succeeds, inserting a row expiring 15 minutes later, only when no row on the
pair exists at all. -/
theorem C8_dead_row_blocks_retry (db : DB) (now : Int) (nid uid sid xid : Nat)
    (hdead : live_reservation db now sid xid = false) :
    ((db.reservations.any fun r => r.scheduleId == sid && r.seatId == xid) = true →
      create_hold db now nid uid sid xid = Except.error HoldError.uniqueViolation) ∧
    ((db.reservations.any fun r => r.scheduleId == sid && r.seatId == xid) = false →
      create_hold db now nid uid sid xid =
        Except.ok { db with
          reservations := db.reservations ++
            [{ id := nid, userId := uid, scheduleId := sid, seatId := xid,
               reserved_until := now + 15 * 60 }] }) := by
  constructor <;> intro h <;> simp [create_hold, hdead, h]

/-- Witness for C8_dead_row_blocks_retry: at time 960 the dead hold on (S, X)
still makes a fresh hold fail with the integrity error. -/
theorem C8_dead_row_blocks_retry_witness :
    create_hold dbDeadHold 960 3 9 1 1 = Except.error HoldError.uniqueViolation :=
  (C8_dead_row_blocks_retry dbDeadHold 960 3 9 1 1 (by decide)).1 (by decide)

/-- A seat id appears in the booked list of available_seats_for_schedule
exactly when bookedFor holds for it. -/
lemma mem_booked_seat_ids (db : DB) (schedId x : Nat) :
    x ∈ booked_seat_ids db schedId ↔ bookedFor db schedId x = true := by
  simp only [booked_seat_ids, bookedFor, List.mem_filterMap, List.any_eq_true,
    Option.ite_none_right_eq_some, Option.some.injEq, Bool.and_eq_true,
    beq_iff_eq]
  constructor
  · rintro ⟨bs, h1, h2, h3⟩
    exact ⟨bs, h1, h3, h2⟩
  · rintro ⟨bs, h1, h2, h3⟩
    exact ⟨bs, h1, h3, h2⟩

/-- A seat id appears in the reserved list of available_seats_for_schedule
exactly when a live reservation covers it. -/
lemma mem_reserved_seat_ids (db : DB) (now : Int) (schedId x : Nat) :
    x ∈ reserved_seat_ids db now schedId ↔
      live_reservation db now schedId x = true := by
  simp only [reserved_seat_ids, live_reservation, List.mem_filterMap,
    List.any_eq_true, Option.ite_none_right_eq_some, Option.some.injEq,
    Bool.and_eq_true, beq_iff_eq, decide_eq_true_eq]
  constructor
  · rintro ⟨r, h1, ⟨h2, h3⟩, h4⟩
    exact ⟨r, h1, ⟨h2, h4⟩, h3⟩
  · rintro ⟨r, h1, ⟨h2, h4⟩, h3⟩
    exact ⟨r, h1, ⟨h2, h3⟩, h4⟩

/-- Membership characterization of Screen.available_seats_for_schedule: a
seat record is listed exactly when it is a seat of the screen that is neither
actively booked nor live-reserved. No condition on the seat's physical
status appears. -/
lemma mem_available_seats (db : DB) (now : Int) (scr : Nat)
    (ms : MovieSchedule) (seat : Seat) :
    seat ∈ available_seats_for_schedule db now scr ms ↔
      seat ∈ db.seats ∧ seat.screenId = scr ∧
      bookedFor db ms.id seat.id = false ∧
      live_reservation db now ms.id seat.id = false := by
  simp only [available_seats_for_schedule]
  constructor
  · intro h
    rw [List.mem_filter] at h
    obtain ⟨h12, h3⟩ := h
    rw [List.mem_filter] at h12
    obtain ⟨h1, h2⟩ := h12
    rw [Bool.not_eq_true'] at h3
    rw [List.contains] at h3
    have hnm : seat.id ∉
        booked_seat_ids db ms.id ++ reserved_seat_ids db now ms.id := by
      intro hm
      rw [← List.elem_iff] at hm
      rw [h3] at hm
      cases hm
    rw [List.mem_append] at hnm
    push_neg at hnm
    refine ⟨h1, by simpa using h2, ?_, ?_⟩
    · rw [← Bool.not_eq_true]
      exact fun hb => hnm.1 ((mem_booked_seat_ids db ms.id seat.id).mpr hb)
    · rw [← Bool.not_eq_true]
      exact fun hr => hnm.2 ((mem_reserved_seat_ids db now ms.id seat.id).mpr hr)
  · rintro ⟨h1, h2, h3, h4⟩
    rw [List.mem_filter]
    constructor
    · rw [List.mem_filter]
      exact ⟨h1, by simpa using h2⟩
    · rw [Bool.not_eq_true']
      rw [List.contains]
      rw [← Bool.not_eq_true]
      intro hb
      have hm := List.elem_iff.mp hb
      rw [List.mem_append] at hm
      rcases hm with hm | hm
      · rw [mem_booked_seat_ids] at hm
        rw [h3] at hm
        cases hm
      · rw [mem_reserved_seat_ids] at hm
        rw [h4] at hm
        cases hm

/-- Characterization of Seat.is_available_for_schedule: true exactly when the
physical status is available, no active booking covers the seat and no live
reservation covers it. -/
lemma is_available_iff (db : DB) (now : Int) (seat : Seat)
    (ms : MovieSchedule) :
    Seat.is_available_for_schedule db now seat ms = true ↔
      seat.status = SeatStatus.available ∧
      bookedFor db ms.id seat.id = false ∧
      live_reservation db now ms.id seat.id = false := by
  unfold Seat.is_available_for_schedule
  by_cases h1 : seat.status = SeatStatus.available
  · simp only [h1, bne_self_eq_false, Bool.false_eq_true, if_false]
    by_cases h2 : bookedFor db ms.id seat.id = true
    · simp [h2]
    · have h2f : bookedFor db ms.id seat.id = false := by
        rw [← Bool.not_eq_true]; exact h2
      simp [h2f]
  · have hb : (seat.status != SeatStatus.available) = true := by
      simp [bne_iff_ne, h1]
    simp [hb, h1]

/-- C6 amended: available_seats_for_schedule returns exactly the screen's
seats minus active-booked and live-reserved ones — the physical status is
never consulted, so maintenance/occupied/blocked seats are listed whenever
nothing books or holds them (see the counterexample); the physical-status
exclusion exists only in the single-seat check is_available_for_schedule. -/
theorem C6_no_status_filter_in_list (db : DB) (now : Int) (scr : Nat)
    (ms : MovieSchedule) (seat : Seat) :
    (seat ∈ available_seats_for_schedule db now scr ms ↔
      seat ∈ db.seats ∧ seat.screenId = scr ∧
      bookedFor db ms.id seat.id = false ∧
      live_reservation db now ms.id seat.id = false) ∧
    (Seat.is_available_for_schedule db now seat ms = true ↔
      seat.status = SeatStatus.available ∧
      bookedFor db ms.id seat.id = false ∧
      live_reservation db now ms.id seat.id = false) :=
  ⟨mem_available_seats db now scr ms seat, is_available_iff db now seat ms⟩

/-- C7 amended: a PENDING booking blocks its seats on EVERY availability
read regardless of expires_at — the filters select on booking_status alone —
so the seats of a PENDING booking past its expiry stay unavailable until a
write physically moves the status away from PENDING. (The theorem has no
hypothesis on now versus expires_at: it covers expired bookings in
particular.) -/
theorem C7_pending_blocks_regardless_of_expiry (db : DB) (now : Int)
    (ms : MovieSchedule) (seat : Seat) (b : Booking) (bs : BookedSeat)
    (hb : b ∈ db.bookings) (hbs : bs ∈ db.bookedSeats)
    (h1 : bs.bookingId = b.id) (h2 : bs.seatId = seat.id)
    (h3 : b.scheduleId = ms.id) (h4 : b.booking_status = BookingStatus.PENDING) :
    bookedFor db ms.id seat.id = true ∧
    Seat.is_available_for_schedule db now seat ms = false ∧
    seat ∉ available_seats_for_schedule db now seat.screenId ms := by
  have hbk : bookedFor db ms.id seat.id = true := by
    unfold bookedFor
    rw [List.any_eq_true]
    refine ⟨bs, hbs, ?_⟩
    rw [Bool.and_eq_true]
    constructor
    · simp [h2]
    · rw [List.any_eq_true]
      refine ⟨b, hb, ?_⟩
      simp [h1, h3, h4]
  refine ⟨hbk, ?_, ?_⟩
  · simp [Seat.is_available_for_schedule, hbk]
  · intro hmem
    have hc := ((mem_available_seats db now seat.screenId ms seat).mp hmem).2.2.1
    rw [hbk] at hc
    cases hc

/-- Witness for C7_pending_blocks_regardless_of_expiry: at time 1000 the
PENDING booking on seat X expired at 900, yet both reads still block it. -/
theorem C7_pending_blocks_witness :
    bookedFor dbPendX 1 1 = true ∧
    Seat.is_available_for_schedule dbPendX 1000 seatX schedS = false ∧
    seatX ∉ available_seats_for_schedule dbPendX 1000 1 schedS :=
  C7_pending_blocks_regardless_of_expiry dbPendX 1000 schedS seatX pendBooking
    { bookingId := 1, seatId := 1, price_paid := 10 }
    (by decide) (by decide) rfl rfl rfl rfl

/-- C9 amended: the expiry boundary is reserved_until >= now, so for a seat of
the screen with no active booking whose every hold on the pair expires at t
(and at least one such hold exists), the seat is listed by available_seats
exactly when t < now: it is still EXCLUDED at the instant now = t and
reappears only strictly after t. -/
theorem C9_hold_expiry_boundary (db : DB) (now t : Int) (scr : Nat)
    (ms : MovieSchedule) (seat : Seat)
    (hseat : seat ∈ db.seats) (hscr : seat.screenId = scr)
    (hnb : bookedFor db ms.id seat.id = false)
    (hall : ∀ r ∈ db.reservations,
      r.scheduleId = ms.id → r.seatId = seat.id → r.reserved_until = t)
    (hex : ∃ r ∈ db.reservations, r.scheduleId = ms.id ∧ r.seatId = seat.id) :
    seat ∈ available_seats_for_schedule db now scr ms ↔ t < now := by
  rw [mem_available_seats]
  constructor
  · rintro ⟨-, -, -, hlive⟩
    obtain ⟨r, hr, hrs, hrx⟩ := hex
    rw [live_reservation, List.any_eq_false] at hlive
    have hnr := hlive r hr
    rw [Bool.and_eq_true, Bool.and_eq_true] at hnr
    push_neg at hnr
    have hlt : ¬(r.reserved_until ≥ now) := by
      intro hge
      exact hnr ⟨by simp [hrs], by simp [hrx]⟩ (by simp [hge])
    have ht := hall r hr hrs hrx
    omega
  · intro hlt
    refine ⟨hseat, hscr, hnb, ?_⟩
    rw [live_reservation, List.any_eq_false]
    intro r hr
    rw [Bool.and_eq_true, Bool.and_eq_true]
    rintro ⟨⟨hs, hx⟩, hge⟩
    have hs' : r.scheduleId = ms.id := by simpa using hs
    have hx' : r.seatId = seat.id := by simpa using hx
    have hge' : r.reserved_until ≥ now := by simpa using hge
    have ht := hall r hr hs' hx'
    omega

/-- Witness for C9_hold_expiry_boundary: with the hold on (S, X) expiring at
500, seat X is listed again at time 501. -/
theorem C9_hold_expiry_boundary_witness :
    seatX ∈ available_seats_for_schedule dbHold500 501 1 schedS :=
  (C9_hold_expiry_boundary dbHold500 501 500 1 schedS seatX
    (by decide) rfl (by decide) (by decide) (by decide)).mpr (by decide)

/-- The booking-creation loop touches only the bookedSeats table: every other
field of the store is carried through unchanged, error or not. -/
lemma bookingStep_frame (bookingId : Nat) (ms : Option MovieSchedule) :
    ∀ (seatIds : List Nat) (acc : DB × Option BookingError),
      ((seatIds.foldl (bookingStep bookingId ms) acc).1).reservations
          = acc.1.reservations ∧
      ((seatIds.foldl (bookingStep bookingId ms) acc).1).bookings
          = acc.1.bookings ∧
      ((seatIds.foldl (bookingStep bookingId ms) acc).1).seats = acc.1.seats ∧
      ((seatIds.foldl (bookingStep bookingId ms) acc).1).seatTypes
          = acc.1.seatTypes ∧
      ((seatIds.foldl (bookingStep bookingId ms) acc).1).schedules
          = acc.1.schedules := by
  intro seatIds
  induction seatIds with
  | nil => intro acc; exact ⟨rfl, rfl, rfl, rfl, rfl⟩
  | cons s rest ih =>
    intro acc
    rw [List.foldl_cons]
    have hstep :
        (bookingStep bookingId ms acc s).1.reservations = acc.1.reservations ∧
        (bookingStep bookingId ms acc s).1.bookings = acc.1.bookings ∧
        (bookingStep bookingId ms acc s).1.seats = acc.1.seats ∧
        (bookingStep bookingId ms acc s).1.seatTypes = acc.1.seatTypes ∧
        (bookingStep bookingId ms acc s).1.schedules = acc.1.schedules := by
      rcases acc with ⟨d, e⟩
      cases e with
      | some e0 => exact ⟨rfl, rfl, rfl, rfl, rfl⟩
      | none =>
        by_cases h : (d.bookedSeats.any fun bs =>
            bs.bookingId == bookingId && bs.seatId == s) = true
        · simp [bookingStep, insertBookedSeat, h]
        · simp [bookingStep, insertBookedSeat, h]
    obtain ⟨h1, h2, h3, h4, h5⟩ := ih (bookingStep bookingId ms acc s)
    obtain ⟨g1, g2, g3, g4, g5⟩ := hstep
    exact ⟨h1.trans g1, h2.trans g2, h3.trans g3, h4.trans g4, h5.trans g5⟩

/-- create_booking never touches the reservations table. -/
lemma create_booking_reservations (db : DB) (now : Int)
    (nid uid sid : Nat) (amt : Int) (seatIds : List Nat) :
    ((create_booking db now nid uid sid amt seatIds).1).reservations
      = db.reservations := by
  simp only [create_booking]
  exact (bookingStep_frame _ _ seatIds _).1

/-- confirm_booking_op never touches the reservations table. -/
lemma confirm_op_reservations (db : DB) (now : Int) (bid : Nat)
    (pm pr : Option String) :
    (confirm_booking_op db now bid pm pr).reservations = db.reservations := by
  unfold confirm_booking_op
  cases db.bookings.find? (fun b => b.id == bid) with
  | none => rfl
  | some b => rfl

/-- cancel_booking_op never touches the reservations table. -/
lemma cancel_op_reservations (db : DB) (bid : Nat) (reason : Option String) :
    (cancel_booking_op db bid reason).reservations = db.reservations := by
  unfold cancel_booking_op
  cases db.bookings.find? (fun b => b.id == bid) with
  | none => rfl
  | some b => rfl

/-- A successful create_hold preserves row-level pair uniqueness: the insert
only went through because no row on the pair existed. -/
lemma create_hold_pair_unique (db : DB) (now : Int) (nid uid sid xid : Nat)
    (h : ResPairUnique db) (db2 : DB)
    (hok : create_hold db now nid uid sid xid = Except.ok db2) :
    ResPairUnique db2 := by
  unfold create_hold at hok
  by_cases h1 : live_reservation db now sid xid = true
  · rw [if_pos h1] at hok
    cases hok
  · rw [if_neg h1] at hok
    by_cases h2 : (db.reservations.any fun r =>
        r.scheduleId == sid && r.seatId == xid) = true
    · rw [if_pos h2] at hok
      cases hok
    · rw [if_neg h2] at hok
      injection hok with h3
      subst h3
      unfold ResPairUnique
      rw [List.pairwise_append]
      refine ⟨h, List.pairwise_singleton _ _, ?_⟩
      intro a ha r hr
      simp only [List.mem_singleton] at hr
      subst hr
      rintro ⟨hsch, hseat⟩
      rw [Bool.not_eq_true] at h2
      rw [List.any_eq_false] at h2
      have := h2 a ha
      simp only [Bool.and_eq_true, beq_iff_eq] at this
      exact this ⟨hsch, hseat⟩

/-- C1 amended: what the five operations DO preserve is row-level uniqueness
of reservations per (showing, seat) — the database constraint — not the
claimed reservation/booking exclusion: create_hold never consults bookings
and create_booking performs no availability check, so a live hold and an
active BookedSeat can coexist on one pair (see the counterexample). -/
theorem C1_ops_preserve_row_uniqueness (db : DB) (now now2 : Int)
    (nid uid sid xid bkId buid bsid rid : Nat) (amt : Int)
    (seatIds : List Nat) (pm pr reason : Option String)
    (h : ResPairUnique db) :
    (∀ db2, create_hold db now nid uid sid xid = Except.ok db2 →
      ResPairUnique db2) ∧
    ResPairUnique (create_booking db now2 bkId buid bsid amt seatIds).1 ∧
    ResPairUnique (confirm_booking_op db now2 bkId pm pr) ∧
    ResPairUnique (cancel_booking_op db bkId reason) ∧
    ResPairUnique (release_hold db rid) := by
  refine ⟨fun db2 hok => create_hold_pair_unique db now nid uid sid xid h db2 hok,
    ?_, ?_, ?_, ?_⟩
  · unfold ResPairUnique
    rw [create_booking_reservations]
    exact h
  · unfold ResPairUnique
    rw [confirm_op_reservations]
    exact h
  · unfold ResPairUnique
    rw [cancel_op_reservations]
    exact h
  · unfold ResPairUnique at h ⊢
    unfold release_hold
    exact List.Pairwise.sublist (List.filter_sublist _) h

/-- Witness for C1_ops_preserve_row_uniqueness at the empty catalog store. -/
theorem C1_ops_preserve_row_uniqueness_witness :
    ResPairUnique (release_hold catalogDB 5) :=
  (C1_ops_preserve_row_uniqueness catalogDB 0 0 1 2 1 1 3 7 1 5 10 [1]
    none none none List.Pairwise.nil).2.2.2.2

/-- The snapshot price depends only on the seats and seatTypes tables. -/
lemma priceIn_congr (db d : DB) (ms : Option MovieSchedule) (s : Nat)
    (hseats : d.seats = db.seats) (htypes : d.seatTypes = db.seatTypes) :
    priceIn d ms s = priceIn db ms s := by
  unfold priceIn
  rw [hseats]
  cases db.seats.find? (fun x => x.id == s) with
  | none => cases ms <;> rfl
  | some seat =>
    cases ms with
    | none => rfl
    | some m =>
      unfold Seat.get_price_for_schedule
      rw [htypes]

/-- When the seat list is duplicate-free and the booking id is fresh, the
creation loop never hits the (booking, seat) uniqueness constraint: it ends
with no error and appends exactly one priced row per seat. -/
lemma bookingStep_success_chain (db : DB) (bookingId : Nat)
    (ms : Option MovieSchedule) :
    ∀ (seatIds : List Nat) (d : DB),
      d.seats = db.seats → d.seatTypes = db.seatTypes →
      (∀ s ∈ seatIds, ∀ bs ∈ d.bookedSeats,
        ¬(bs.bookingId = bookingId ∧ bs.seatId = s)) →
      seatIds.Nodup →
      (seatIds.foldl (bookingStep bookingId ms) (d, none)).2 = none ∧
      (seatIds.foldl (bookingStep bookingId ms) (d, none)).1.bookedSeats
        = d.bookedSeats ++ seatIds.map (fun s =>
            { bookingId := bookingId, seatId := s,
              price_paid := priceIn db ms s }) := by
  intro seatIds
  induction seatIds with
  | nil => intro d h1 h2 h3 h4; exact ⟨rfl, by simp⟩
  | cons s rest ih =>
    intro d h1 h2 h3 h4
    rw [List.foldl_cons]
    have hguard : (d.bookedSeats.any fun bs =>
        bs.bookingId == bookingId && bs.seatId == s) = false := by
      rw [List.any_eq_false]
      intro bs hbs
      have hnot := h3 s (List.mem_cons_self s rest) bs hbs
      simp only [Bool.and_eq_true, beq_iff_eq]
      exact fun hp => hnot hp
    have hstep : bookingStep bookingId ms (d, none) s =
        ({ d with bookedSeats := d.bookedSeats ++
            [{ bookingId := bookingId, seatId := s,
               price_paid := priceIn d ms s }] }, none) := by
      simp [bookingStep, insertBookedSeat, hguard]
    rw [hstep]
    have hnods : s ∉ rest := (List.nodup_cons.mp h4).1
    have hfresh2 : ∀ u ∈ rest, ∀ bs ∈
        (d.bookedSeats ++
          [{ bookingId := bookingId, seatId := s,
             price_paid := priceIn d ms s : BookedSeat }]),
        ¬(bs.bookingId = bookingId ∧ bs.seatId = u) := by
      intro u hu bs hbs
      rcases List.mem_append.mp hbs with hin | hnew
      · exact h3 u (List.mem_cons_of_mem s hu) bs hin
      · simp only [List.mem_singleton] at hnew
        subst hnew
        rintro ⟨-, hsu⟩
        simp only at hsu
        exact hnods (hsu ▸ hu)
    obtain ⟨ha, hb⟩ := ih
      { d with bookedSeats := d.bookedSeats ++
          [{ bookingId := bookingId, seatId := s,
             price_paid := priceIn d ms s }] }
      h1 h2 hfresh2 (List.nodup_cons.mp h4).2
    refine ⟨ha, ?_⟩
    rw [hb]
    simp only [List.map_cons, List.append_assoc, List.singleton_append,
      priceIn_congr db d ms s h1 h2]

/-- C2 amended: create_booking performs NO availability check at all — for
every store, whenever the requested seat list is duplicate-free and the new
booking id is fresh, it reports no error and inserts the PENDING booking row
plus one BookedSeat per requested seat (price snapshotted from the current
catalog), even if some of those seats are held or booked by someone else; it
can never fail with SeatUnavailable (see the counterexample for a concrete
double-booking). -/
theorem C2_create_booking_always_inserts (db : DB) (now : Int)
    (nid uid sid : Nat) (amt : Int) (seatIds : List Nat)
    (hnodup : seatIds.Nodup)
    (hfresh : ∀ bs ∈ db.bookedSeats, bs.bookingId ≠ nid) :
    (create_booking db now nid uid sid amt seatIds).2 = none ∧
    (create_booking db now nid uid sid amt seatIds).1.bookings
      = db.bookings ++ [newPendingBooking now nid uid sid amt] ∧
    (create_booking db now nid uid sid amt seatIds).1.bookedSeats
      = db.bookedSeats ++ seatIds.map (fun s =>
          { bookingId := nid, seatId := s,
            price_paid :=
              priceIn db (db.schedules.find? (fun m => m.id == sid)) s }) := by
  simp only [create_booking]
  have hfresh1 : ∀ s ∈ seatIds, ∀ bs ∈
      ({ db with bookings := db.bookings ++
          [newPendingBooking now nid uid sid amt] } : DB).bookedSeats,
      ¬(bs.bookingId = nid ∧ bs.seatId = s) := by
    intro s hs bs hbs
    rintro ⟨hid, -⟩
    exact hfresh bs hbs hid
  obtain ⟨ha, hb⟩ := bookingStep_success_chain db nid
    (db.schedules.find? (fun m => m.id == sid)) seatIds
    { db with bookings := db.bookings ++ [newPendingBooking now nid uid sid amt] }
    rfl rfl hfresh1 hnodup
  refine ⟨ha, ?_, hb⟩
  exact (bookingStep_frame nid _ seatIds _).2.1

/-- Witness for C2_create_booking_always_inserts: booking seats X and Y on the
store where Y is already CONFIRMED-booked still reports no error. -/
theorem C2_create_booking_always_inserts_witness :
    (create_booking dbBookedY 1000 2 8 1 20 [1, 2]).2 = none :=
  (C2_create_booking_always_inserts dbBookedY 1000 2 8 1 20 [1, 2]
    (by decide) (by decide)).1

/-- Changing a schedule's base_price rewrites exactly that row of the
schedules table, so a booking's schedule lookup returns the rewritten row. -/
lemma scheduleOf_set_schedule_base_price (db : DB) (schedId : Nat) (p : Int)
    (b : Booking) :
    scheduleOf (set_schedule_base_price db schedId p) b
      = (scheduleOf db b).map
          (fun m => if m.id == schedId then { m with base_price := p } else m) := by
  unfold scheduleOf set_schedule_base_price
  rw [List.find?_map]
  congr 1
  congr 1
  funext m
  simp only [Function.comp]
  by_cases h : m.id = schedId
  · simp [h]
  · simp [h]

/-- C10 confirmed: Seat.get_price_for_schedule returns the seat type's
base_price for EVERY schedule argument — the value is the same for any two
schedules, it equals the found seat type's base_price, and changing a
schedule's own base_price column changes neither the per-seat price nor
Booking.calculate_total_amount (which sums that price over the booking's
seats): per-schedule pricing is never applied. -/
theorem C10_price_ignores_schedule (db : DB) (seat : Seat)
    (ms1 ms2 : MovieSchedule) (schedId : Nat) (p : Int) (b : Booking)
    (st : SeatType) :
    Seat.get_price_for_schedule db seat ms1
      = Seat.get_price_for_schedule db seat ms2 ∧
    (db.seatTypes.find? (fun t => t.id == seat.seatTypeId) = some st →
      Seat.get_price_for_schedule db seat ms1 = st.base_price) ∧
    Seat.get_price_for_schedule (set_schedule_base_price db schedId p) seat ms1
      = Seat.get_price_for_schedule db seat ms1 ∧
    Booking.calculate_total_amount (set_schedule_base_price db schedId p) b
      = Booking.calculate_total_amount db b := by
  refine ⟨rfl, ?_, rfl, ?_⟩
  · intro h
    unfold Seat.get_price_for_schedule
    rw [h]
  · unfold Booking.calculate_total_amount
    have hbs : booked_seats_of (set_schedule_base_price db schedId p) b
        = booked_seats_of db b := rfl
    rw [hbs]
    apply List.foldl_ext
    intro acc bs hbs2
    congr 1
    rw [scheduleOf_set_schedule_base_price]
    have hseats : (set_schedule_base_price db schedId p).seats = db.seats := rfl
    rw [hseats]
    cases hm : scheduleOf db b with
    | none =>
      cases db.seats.find? (fun s => s.id == bs.seatId) <;> rfl
    | some m =>
      cases db.seats.find? (fun s => s.id == bs.seatId) with
      | none => rfl
      | some seat2 => rfl

/-- Witness for C10_price_ignores_schedule at the concrete catalog (the
second conjunct carries a hypothesis: the found seat type of seat X is
vipType, whose base_price the function returns). -/
theorem C10_price_ignores_schedule_witness :
    Seat.get_price_for_schedule catalogDB seatX schedS = vipType.base_price :=
  (C10_price_ignores_schedule catalogDB seatX schedS schedS 1 77 bookingB
    vipType).2.1 (by decide)
